import Mathlib

/-!
Verification of the pagination/auth core of `youtubeaio/youtube.py`
(a typed asynchronous client for the YouTube Data API).

The Python code is embedded shallowly:
* JSON response bodies are modelled by `ResponseBody`, holding exactly the
  fields the core reads (`items`, `nextPageToken`, the top-level `message`
  used for status 400, and the `error.errors[*].message` list used for 403).
* The exception taxonomy of `youtubeaio.types` plus the builtin Python
  exceptions raised by the file are the inductive `YtError`.
* The network is a list of `FetchOutcome`s consumed in request order; each
  outcome is either a timeout of the page fetch or a delivered HTTP response.
* The async generator `_build_generator` becomes the recursive function
  `buildGeneratorLoop`, returning the yielded records, the final outcome and
  the number of HTTP requests performed.
-/

section DataModel

variable (α : Type)

/-- One decoded JSON body, restricted to the fields the client reads.
`items` is `none` when the body has no `items` key (Python
`data.get("items", [])`), `errorMessages` models the list
`body["error"]["errors"]` projected to its `message` fields (`none` when the
`error`/`errors` path is absent). -/
structure ResponseBody where
  items : Option (List α) := none
  nextPageToken : Option String := none
  message : Option String := none
  errorMessages : Option (List String) := none
  deriving Repr, DecidableEq

/-- An HTTP response as the client observes it: status code, declared
content type, and the decoded JSON body. -/
structure HttpResponse where
  status : Nat
  contentType : String
  body : ResponseBody α
  deriving Repr, DecidableEq

/-- The outcome of one page fetch: either the bounded timeout fires
(`async_timeout.timeout`), or a response is delivered. -/
inductive FetchOutcome where
  | timeout : FetchOutcome
  | response : HttpResponse α → FetchOutcome
  deriving Repr, DecidableEq

end DataModel

/-- The exceptions raised by `youtube.py`: the `youtubeaio.types` taxonomy
(`YouTubeBackendError`, `YouTubeAPIError`, `YouTubeResourceNotFoundError`,
`UnauthorizedError`, `ForbiddenError`, `MissingScopeError`) plus the builtin
`ValueError`, and `keyError` for the uncaught `KeyError`/`IndexError` a 403
body of the wrong shape provokes on line 99. `apiErrorFromStatus` is the
message-less `YouTubeAPIError` re-raised from `response.raise_for_status()`
for the remaining 4xx statuses. -/
inductive YtError where
  | backendError : String → YtError
  | apiError : String → YtError
  | apiErrorFromStatus : Nat → YtError
  | resourceNotFound : YtError
  | unauthorized : YtError
  | forbidden : String → YtError
  | missingScope : String → YtError
  | valueError : String → YtError
  | keyError : YtError
  deriving Repr, DecidableEq

/-- `YouTube._check_request_return` (youtube.py lines 84-106): classify an
HTTP response by status, reading the body only where the code does.
Scope of the model: the 400/403 branches decode the body via the external
`response.json()`, whose aiohttp content-type guard (it raises
`ContentTypeError` when the declared content type is not JSON) is not
modelled — this definition presupposes the spec's response contract that
400/403 error bodies are JSON, and is only applied to such responses
below. -/
def checkRequestReturn {α : Type} (resp : HttpResponse α) :
    Except YtError (HttpResponse α) :=
  if resp.status = 500 then
    .error (.backendError "Internal Server Error")
  else if resp.status = 400 then
    match resp.body.message with
    | none => .error (.apiError "Bad Request")
    | some m => .error (.apiError ("Bad Request - " ++ m))
  else if resp.status = 404 then
    .error .resourceNotFound
  else if resp.status = 401 then
    .error .unauthorized
  else if resp.status = 403 then
    match resp.body.errorMessages with
    | some (m :: _) => .error (.forbidden m)
    | _ => .error .keyError
  else if 400 ≤ resp.status ∧ resp.status < 500 then
    .error (.apiErrorFromStatus resp.status)
  else
    .ok resp

/-- Python `f"Bearer {self._user_auth_token}"` renders `None` literally. -/
def pyStr : Option String → String
  | none => "None"
  | some s => s

/-- The request assembled by `YouTube._api_get_request` (lines 108-118):
an HTTP GET carrying the bearer header built from the current token. -/
structure HttpRequest where
  url : String
  headers : List (String × String)
  deriving Repr, DecidableEq

/-- `_api_get_request`, request-assembly part: the headers dict is exactly
`{"Authorization": f"Bearer {self._user_auth_token}"}`. -/
def apiGetRequest (userAuthToken : Option String) (url : String) : HttpRequest :=
  { url := url
    headers := [("Authorization", "Bearer " ++ pyStr userAuthToken)] }

/-- Result of running `_build_generator` against a transport: the records
yielded (in order), how the run ended, and how many HTTP requests were made. -/
inductive GenOutcome where
  | ok : GenOutcome
  | raised : YtError → GenOutcome
  | outOfResponses : GenOutcome
  deriving Repr, DecidableEq

structure GenResult (β : Type) where
  records : List β
  outcome : GenOutcome
  requests : Nat
  deriving Repr, DecidableEq

/-- The `while _first or _after is not None` loop of
`YouTube._build_generator` (lines 136-153).  Each iteration pops the next
`FetchOutcome` from the transport list: a timeout raises
`YouTubeBackendError("Timeout occurred")` (lines 154-156); a response first
passes through `_check_request_return` (inside the executor), then the
content-type gate (lines 146-148), then every entry of `items` (absent →
empty) is constructed with `mk` and yielded, and the cursor is read from the
body's `nextPageToken` (lines 149-153). -/
def buildGeneratorLoop {α β : Type} (mk : α → β) :
    List (FetchOutcome α) → Option String → Bool → GenResult β
  | transport, after, first =>
    if first || after.isSome then
      match transport with
      | [] => { records := [], outcome := .outOfResponses, requests := 0 }
      | .timeout :: _ =>
        { records := []
          outcome := .raised (.backendError "Timeout occurred")
          requests := 1 }
      | .response resp :: rest =>
        match checkRequestReturn resp with
        | .error e => { records := [], outcome := .raised e, requests := 1 }
        | .ok r =>
          if r.contentType ≠ "application/json" then
            { records := []
              outcome := .raised (.apiError "Unexpected response type")
              requests := 1 }
          else
            let recs := (r.body.items.getD []).map mk
            let next := buildGeneratorLoop mk rest r.body.nextPageToken false
            { records := recs ++ next.records
              outcome := next.outcome
              requests := 1 + next.requests }
    else
      { records := [], outcome := .ok, requests := 0 }

/-- `YouTube._build_generator` entry (lines 120-136): the initial cursor is
`url_params.get("nextPageToken")` and `_first` starts true. -/
def buildGenerator {α β : Type} (mk : α → β) (transport : List (FetchOutcome α))
    (initCursor : Option String) : GenResult β :=
  buildGeneratorLoop mk transport initCursor true

/-- Wrap a JSON body as a well-formed 200 response, the shape a successful
page fetch delivers. -/
def okPage {α : Type} (b : ResponseBody α) : FetchOutcome α :=
  .response { status := 200, contentType := "application/json", body := b }

/-- True of a body list in which every page except the last carries a
next-page cursor and the last does not: the cursor chain c1 → c2 → ... → null
of a complete paginated run. -/
def chainOk {α : Type} : List (ResponseBody α) → Bool
  | [] => false
  | [b] => b.nextPageToken.isNone
  | b :: rest => b.nextPageToken.isSome && chainOk rest

/-- Authorization scopes (`youtubeaio.types.AuthScope`): the enum's members
are opaque names here, only list emptiness matters to the client. -/
def AuthScope : Type := String
deriving instance DecidableEq, Repr for AuthScope

/-- The credential fields of a `YouTube` object (class attributes, lines
52-55): `_user_auth_token`, `_user_auth_refresh_token`, `_user_auth_scopes`,
`_has_user_auth`. -/
structure AuthState where
  userAuthToken : Option String := none
  userAuthRefreshToken : Option String := none
  userAuthScopes : List AuthScope := []
  hasUserAuth : Bool := false
  deriving Repr, DecidableEq

/-- The credential state of a freshly constructed client: the class-level
defaults (token `None`, refresh token `None`, empty scopes). -/
def initAuthState : AuthState := {}

/-- `YouTube.set_user_authentication` (lines 158-187) as a state
transformer: a raised exception leaves the object untouched, a successful
run stores the new credential.  The refresh-token check precedes the scope
check, as in the source. -/
def set_user_authentication (autoRefreshAuth : Bool) (st : AuthState)
    (token : String) (scopes : List AuthScope) (refreshToken : Option String) :
    AuthState × Option YtError :=
  if refreshToken.isNone && autoRefreshAuth then
    (st, some (.valueError
      "refresh_token has to be provided when auto_refresh_auth is True"))
  else if scopes.isEmpty then
    (st, some (.missingScope "scope was not provided"))
  else
    ({ userAuthToken := some token
       userAuthRefreshToken := refreshToken
       userAuthScopes := scopes
       hasUserAuth := true }, none)

/-- `YouTube.get_user_auth_token` (lines 189-194). -/
def get_user_auth_token (st : AuthState) : Option String :=
  st.userAuthToken

/-- An `aiohttp.ClientSession`, reduced to its closed flag.
Modelled from the spec: `aiohttp` is an external collaborator; releasing a
session marks it closed, and closing an already-closed session is a no-op
("closing twice is a no-op"). -/
structure SessionModel where
  closed : Bool := false
  deriving Repr, DecidableEq

def sessionClose (s : SessionModel) : SessionModel := { closed := true }

/-- The session-ownership fields of a `YouTube` object: `self.session` and
the `_close_session` flag (class default `False`, line 48). -/
structure ClientSessions where
  session : Option SessionModel
  closeSession : Bool
  deriving Repr, DecidableEq

/-- `YouTube.__init__`, session part (line 66): stores the supplied session
(or `None`); `_close_session` keeps its class default `False`. -/
def initClient (suppliedSession : Option SessionModel) : ClientSessions :=
  { session := suppliedSession, closeSession := false }

/-- `_build_generator` lines 132-134: on first network use, if no session
exists, create one and record ownership. -/
def ensureSession (c : ClientSessions) : ClientSessions :=
  match c.session with
  | none => { session := some {}, closeSession := true }
  | some _ => c

/-- `YouTube.close` (lines 305-308): close the session only if one exists
and this client owns it. -/
def close (c : ClientSessions) : ClientSessions :=
  match c.session with
  | some s => if c.closeSession then { c with session := some (sessionClose s) } else c
  | none => c

/-- Result of a resource accessor: either a validation error raised before
the pagination engine runs (zero HTTP requests), or the engine's run. -/
inductive AccessorResult (β : Type) where
  | validationError : YtError → AccessorResult β
  | ran : GenResult β → AccessorResult β
  deriving Repr, DecidableEq

def AccessorResult.requestCount {β : Type} : AccessorResult β → Nat
  | .validationError _ => 0
  | .ran r => r.requests

/-- The query parameters `get_videos` builds (lines 204-207). -/
def get_videos_params (videoIds : List String) : List (String × String) :=
  [("part", "snippet"), ("id", String.intercalate "," videoIds)]

/-- `YouTube.get_videos` (lines 196-214): an empty id list raises
`ValueError` before `_build_generator` is entered; otherwise the engine runs
with the built parameters (which contain no "nextPageToken" key, so the
initial cursor is `none`). -/
def get_videos {α β : Type} (mk : α → β) (videoIds : List String)
    (transport : List (FetchOutcome α)) : AccessorResult β :=
  if videoIds.isEmpty then
    .validationError (.valueError "at least one video id has to be set")
  else
    .ran (buildGenerator mk transport none)

/-- The query parameters `get_channels` builds (lines 247-250). -/
def get_channels_params (channelIds : List String) : List (String × String) :=
  [("part", "snippet,contentDetails,statistics"),
   ("id", String.intercalate "," channelIds)]

/-- `YouTube.get_channels` (lines 242-252): no emptiness check; the id list
is joined with "," (empty list → "") and the engine always runs. -/
def get_channels {α β : Type} (mk : α → β) (channelIds : List String)
    (transport : List (FetchOutcome α)) : AccessorResult β :=
  .ran (buildGenerator mk transport none)

/-- True of a body list in which every page carries a next-page cursor: a
run truncated before its last page (e.g. one interrupted by a timeout). -/
def allCont {α : Type} : List (ResponseBody α) → Bool
  | [] => true
  | b :: rest => b.nextPageToken.isSome && allCont rest

/-- A concrete three-page run used to instantiate the pagination theorems:
cursors c2 → c3 → null; the middle page has no `items` key. -/
def pagesW : List (ResponseBody Nat) :=
  [{ items := some [1, 2], nextPageToken := some "c2" },
   { items := none, nextPageToken := some "c3" },
   { items := some [7], nextPageToken := none }]

/-- A concrete run prefix for the timeout theorem: one page with a cursor. -/
def pagesT : List (ResponseBody Nat) :=
  [{ items := some [5], nextPageToken := some "c2" }]

/-- The default of the `session_timeout` constructor parameter
(`YouTube.__init__`, line 62): the bound under which every page fetch
runs. -/
def defaultSessionTimeout : Nat := 10

/-! ## Helper lemmas about the pagination loop -/

theorem checkRequestReturn_200 {α : Type} (b : ResponseBody α) :
    checkRequestReturn { status := 200, contentType := "application/json", body := b } =
      .ok { status := 200, contentType := "application/json", body := b } := by
  simp [checkRequestReturn]

/-- Stepping the loop over one well-formed 200 JSON page yields its items
and recurses with the page's cursor. -/
theorem buildGeneratorLoop_okPage_step {α β : Type} (mk : α → β)
    (b : ResponseBody α) (rest : List (FetchOutcome α))
    (after : Option String) (first : Bool)
    (hg : (first || after.isSome) = true) :
    buildGeneratorLoop mk (okPage b :: rest) after first =
      { records := (b.items.getD []).map mk ++
          (buildGeneratorLoop mk rest b.nextPageToken false).records
        outcome := (buildGeneratorLoop mk rest b.nextPageToken false).outcome
        requests := 1 + (buildGeneratorLoop mk rest b.nextPageToken false).requests } := by
  conv_lhs => rw [buildGeneratorLoop.eq_def]
  simp [hg, okPage, checkRequestReturn_200]

/-- If the loop guard fails (not first, no cursor), the loop exits at once. -/
theorem buildGeneratorLoop_exit {α β : Type} (mk : α → β)
    (transport : List (FetchOutcome α)) :
    buildGeneratorLoop mk transport none false =
      { records := [], outcome := .ok, requests := 0 } := by
  rw [buildGeneratorLoop.eq_def]
  simp

/-- Over a cursor-chained page list the loop yields the concatenation of the
pages' items, terminates normally, and makes one request per page. -/
theorem buildGeneratorLoop_chained {α β : Type} (mk : α → β)
    (pages : List (ResponseBody α)) (after : Option String) (first : Bool)
    (hc : chainOk pages = true) (hg : (first || after.isSome) = true) :
    buildGeneratorLoop mk (pages.map okPage) after first =
      { records := (pages.map (fun b => (b.items.getD []).map mk)).flatten
        outcome := .ok
        requests := pages.length } := by
  induction pages generalizing after first with
  | nil => simp [chainOk] at hc
  | cons b rest ih =>
    cases rest with
    | nil =>
      have hb : b.nextPageToken = none := by
        simpa [chainOk, Option.isNone_iff_eq_none] using hc
      simp [buildGeneratorLoop_okPage_step mk b [] after first hg, hb,
        buildGeneratorLoop_exit]
    | cons b2 rest2 =>
      have hb : b.nextPageToken.isSome = true := by
        simp [chainOk] at hc
        exact hc.1
      have hc2 : chainOk (b2 :: rest2) = true := by
        simp [chainOk] at hc ⊢
        exact hc.2
      have hrec := ih b.nextPageToken false hc2 (by simp [hb])
      rw [List.map_cons, buildGeneratorLoop_okPage_step mk b _ after first hg,
        hrec]
      simp [Nat.add_comm]

/-- If every consumed page carries a cursor and the next fetch times out,
the loop yields the prefix's items, raises the timeout backend error, and
stops: the transport beyond the timeout is never consumed. -/
theorem buildGeneratorLoop_timeout {α β : Type} (mk : α → β)
    (pages : List (ResponseBody α)) (rest : List (FetchOutcome α))
    (after : Option String) (first : Bool)
    (hc : allCont pages = true) (hg : (first || after.isSome) = true) :
    buildGeneratorLoop mk (pages.map okPage ++ .timeout :: rest) after first =
      { records := (pages.map (fun b => (b.items.getD []).map mk)).flatten
        outcome := .raised (.backendError "Timeout occurred")
        requests := pages.length + 1 } := by
  induction pages generalizing after first with
  | nil =>
    rw [List.map_nil, List.nil_append, buildGeneratorLoop.eq_def]
    simp [hg]
  | cons b rest2 ih =>
    have hb : b.nextPageToken.isSome = true := by
      simp [allCont] at hc
      exact hc.1
    have hc2 : allCont rest2 = true := by
      simp [allCont] at hc
      exact hc.2
    have hrec := ih b.nextPageToken false hc2 (by simp [hb])
    rw [List.map_cons, List.cons_append,
      buildGeneratorLoop_okPage_step mk b _ after first hg, hrec]
    simp [Nat.add_comm]

/-! ## The claims -/

/-- C1: over N cursor-chained pages (c1 → c2 → ... → null) delivered as
well-formed 200 JSON responses, the engine yields exactly the concatenation
of the pages' item lists in page order and in-page order (a page with no
`items` field contributes nothing), makes exactly N requests, and finishes
normally — for any initial cursor in the parameter mapping, so a single
chained page always costs exactly one request. -/
theorem pagination_concat_requests {α β : Type} (mk : α → β)
    (pages : List (ResponseBody α)) (initCursor : Option String)
    (hc : chainOk pages = true) :
    buildGenerator mk (pages.map okPage) initCursor =
      { records := (pages.map (fun b => (b.items.getD []).map mk)).flatten
        outcome := .ok
        requests := pages.length } :=
  buildGeneratorLoop_chained mk pages initCursor true hc rfl

theorem pagination_concat_requests_witness :
    chainOk pagesW = true ∧
      buildGenerator (fun n => n + 1) (pagesW.map okPage) (some "c1") =
        { records := [2, 3, 8], outcome := .ok, requests := 3 } := by
  refine ⟨by decide, ?_⟩
  rw [pagination_concat_requests (fun n => n + 1) pagesW (some "c1") (by decide)]
  decide

/-- C2 (counterexample): on a 400 response whose body carries
`message = "quota exceeded"`, the classifier's message is
"Bad Request - quota exceeded", not the body's message verbatim as the
claim states. -/
theorem bad_request_message_counterexample :
    checkRequestReturn
        ({ status := 400, contentType := "application/json",
           body := { message := some "quota exceeded" } } : HttpResponse Nat) =
      .error (.apiError "Bad Request - quota exceeded") ∧
    "Bad Request - quota exceeded" ≠ "quota exceeded" := by
  exact ⟨rfl, by decide⟩

/-- C2 (amended): on every 400 response the classifier raises
`YouTubeAPIError` with message "Bad Request" when the body has no `message`
field, and "Bad Request - " followed by the body's message when it has
one. -/
theorem bad_request_message {α : Type} (resp : HttpResponse α)
    (hs : resp.status = 400) :
    checkRequestReturn resp = .error (.apiError
      (match resp.body.message with
       | none => "Bad Request"
       | some m => "Bad Request - " ++ m)) := by
  cases h : resp.body.message with
  | none => simp [checkRequestReturn, hs, h]
  | some m => simp [checkRequestReturn, hs, h]

theorem bad_request_message_witness :
    checkRequestReturn
        ({ status := 400, contentType := "application/json",
           body := {} } : HttpResponse Nat) =
      .error (.apiError "Bad Request") := by
  rw [bad_request_message
    ({ status := 400, contentType := "application/json",
       body := {} } : HttpResponse Nat) rfl]

/-- C3: when the first fetch returns status 403 with a body of shape
`{"error":{"errors":[{"message": m}, ...]}}`, the engine raises
`ForbiddenError` carrying the first entry's message and yields zero records
(one request, no further transport consumed). -/
theorem forbidden_aborts {α β : Type} (mk : α → β) (resp : HttpResponse α)
    (rest : List (FetchOutcome α)) (initCursor : Option String)
    (m : String) (ms : List String)
    (hs : resp.status = 403) (hb : resp.body.errorMessages = some (m :: ms)) :
    buildGenerator mk (.response resp :: rest) initCursor =
      { records := [], outcome := .raised (.forbidden m), requests := 1 } := by
  rw [buildGenerator, buildGeneratorLoop.eq_def]
  simp [checkRequestReturn, hs, hb]

theorem forbidden_aborts_witness :
    buildGenerator (fun n : Nat => n + 1)
      [.response
        { status := 403, contentType := "application/json",
          body := { errorMessages := some ["insufficient permission"] } }] none =
      { records := []
        outcome := .raised (.forbidden "insufficient permission")
        requests := 1 } :=
  forbidden_aborts (fun n : Nat => n + 1)
    { status := 403, contentType := "application/json",
      body := { errorMessages := some ["insufficient permission"] } }
    [] none "insufficient permission" [] rfl rfl

/-- C4: if every page fetched so far carried a cursor and the next fetch
times out, the engine raises `YouTubeBackendError("Timeout occurred")`,
yields exactly the records of the earlier pages and nothing more, and makes
no retry: the request count is the prefix length plus one, whatever
transport lies beyond the timeout. -/
theorem timeout_aborts_no_retry {α β : Type} (mk : α → β)
    (pages : List (ResponseBody α)) (rest : List (FetchOutcome α))
    (initCursor : Option String) (hc : allCont pages = true) :
    defaultSessionTimeout = 10 ∧
    buildGenerator mk (pages.map okPage ++ .timeout :: rest) initCursor =
      { records := (pages.map (fun b => (b.items.getD []).map mk)).flatten
        outcome := .raised (.backendError "Timeout occurred")
        requests := pages.length + 1 } :=
  ⟨rfl, buildGeneratorLoop_timeout mk pages rest initCursor true hc rfl⟩

theorem timeout_aborts_no_retry_witness :
    allCont pagesT = true ∧
      buildGenerator (fun n => n + 1)
        (pagesT.map okPage ++ .timeout :: [okPage { items := some [9] }]) none =
        { records := [6]
          outcome := .raised (.backendError "Timeout occurred")
          requests := 2 } := by
  refine ⟨by decide, ?_⟩
  rw [(timeout_aborts_no_retry (fun n => n + 1) pagesT
    [okPage { items := some [9] }] none (by decide)).2]
  decide

/-- C5 (counterexample): a 404 response declared as "text/html" does not
raise "Unexpected response type": the error classifier runs first, inside
the request executor, and raises `YouTubeResourceNotFoundError` without
reading the body or the content type at all (youtube.py lines 93-94
precede the content-type gate of lines 146-148). -/
theorem content_type_counterexample :
    buildGenerator (fun n : Nat => n)
      [.response
        { status := 404, contentType := "text/html", body := {} }] none =
      { records := [], outcome := .raised .resourceNotFound
        requests := 1 } ∧
    YtError.resourceNotFound ≠ .apiError "Unexpected response type" := by
  exact ⟨rfl, by decide⟩

/-- C5 (amended): for every response that the error classifier passes
through unchanged (so its status triggers no error branch) whose declared
content type is not JSON, the engine raises
`YouTubeAPIError("Unexpected response type")` — whatever the body holds —
and the sequence aborts after that one request with no records. -/
theorem content_type_gate {α β : Type} (mk : α → β) (resp : HttpResponse α)
    (rest : List (FetchOutcome α)) (initCursor : Option String)
    (hok : checkRequestReturn resp = .ok resp)
    (hct : resp.contentType ≠ "application/json") :
    buildGenerator mk (.response resp :: rest) initCursor =
      { records := []
        outcome := .raised (.apiError "Unexpected response type")
        requests := 1 } := by
  rw [buildGenerator, buildGeneratorLoop.eq_def]
  simp [hok, hct]

theorem content_type_gate_witness :
    buildGenerator (fun n : Nat => n)
      [.response
        { status := 200, contentType := "text/html",
          body := { items := some [3] } }] none =
      { records := []
        outcome := .raised (.apiError "Unexpected response type")
        requests := 1 } :=
  content_type_gate (fun n : Nat => n)
    { status := 200, contentType := "text/html", body := { items := some [3] } }
    [] none rfl (by decide)

/-- C6: `set_user_authentication` fails when the scope list is empty, and
fails when auto-refresh is enabled and no refresh token is supplied; each
failure raises one of the two validation errors (`MissingScopeError` or
`ValueError`) and leaves the stored credential fields exactly as they
were. -/
theorem set_user_authentication_validation (autoRefreshAuth : Bool)
    (st : AuthState) (token : String) (scopes : List AuthScope)
    (refreshToken : Option String)
    (h : scopes = [] ∨ (autoRefreshAuth = true ∧ refreshToken = none)) :
    (set_user_authentication autoRefreshAuth st token scopes refreshToken).1
        = st ∧
    ∃ e, (set_user_authentication autoRefreshAuth st token scopes
          refreshToken).2 = some e ∧
      (e = .missingScope "scope was not provided" ∨
       e = .valueError
         "refresh_token has to be provided when auto_refresh_auth is True") := by
  rcases h with h | ⟨ha, hr⟩
  · subst h
    cases hb : (refreshToken.isNone && autoRefreshAuth) with
    | true =>
      refine ⟨?_, ?_⟩
      · simp [set_user_authentication, hb]
      · exact ⟨_, by simp [set_user_authentication, hb], .inr rfl⟩
    | false =>
      refine ⟨?_, ?_⟩
      · simp [set_user_authentication, hb]
      · exact ⟨_, by simp [set_user_authentication, hb], .inl rfl⟩
  · subst ha
    subst hr
    refine ⟨?_, ?_⟩
    · simp [set_user_authentication]
    · exact ⟨_, by simp [set_user_authentication], .inr rfl⟩

theorem set_user_authentication_validation_witness :
    (set_user_authentication false
        { userAuthToken := some "old" } "new" [] none).1 =
      { userAuthToken := some "old" } ∧
    ∃ e, (set_user_authentication false
          { userAuthToken := some "old" } "new" [] none).2 = some e ∧
      (e = .missingScope "scope was not provided" ∨
       e = .valueError
         "refresh_token has to be provided when auto_refresh_auth is True") :=
  set_user_authentication_validation false
    { userAuthToken := some "old" } "new" [] none (.inl rfl)

/-- C7: `close` does nothing when no session was ever created; it never
closes an externally supplied session (construction leaves `_close_session`
false and lazy creation does not run when a session exists); it releases a
session the engine created lazily; and a second `close` changes nothing. -/
theorem close_lifecycle :
    (∀ c : ClientSessions, c.session = none → close c = c) ∧
    (∀ s : SessionModel, ensureSession (initClient (some s))
        = initClient (some s)) ∧
    (∀ s : SessionModel, close (initClient (some s)) = initClient (some s)) ∧
    (close (ensureSession (initClient none))).session
        = some { closed := true } ∧
    (∀ c : ClientSessions, close (close c) = close c) := by
  refine ⟨?_, ?_, ?_, rfl, ?_⟩
  · intro c h
    simp [close, h]
  · intro s
    rfl
  · intro s
    rfl
  · intro c
    rcases c with ⟨sess, flag⟩
    cases sess with
    | none => rfl
    | some s =>
      cases flag with
      | false => rfl
      | true => simp [close, sessionClose]

theorem close_lifecycle_witness :
    close { session := none, closeSession := false }
      = { session := none, closeSession := false } :=
  close_lifecycle.1 { session := none, closeSession := false } rfl

/-- C8: every request the executor assembles carries exactly the header
"Authorization: Bearer <token>" for the token current at request time; with
no token set the header is still attached, rendering the null token
literally as "Bearer None". -/
theorem bearer_header_attached (tok : Option String) (url : String) :
    (apiGetRequest tok url).headers =
      [("Authorization", "Bearer " ++ pyStr tok)] ∧
    (apiGetRequest none url).headers = [("Authorization", "Bearer None")] :=
  ⟨rfl, rfl⟩

/-- C9: `get_videos` with an empty id list raises `ValueError` before any
HTTP request (request count zero), while `get_channels` with an empty id
list performs no such check: its `id` parameter is the empty join and the
engine runs — on a one-page transport it issues one request. -/
theorem empty_id_validation_asymmetry {α β : Type} (mk : α → β)
    (transport : List (FetchOutcome α)) :
    get_videos mk ([] : List String) transport =
      .validationError (.valueError "at least one video id has to be set") ∧
    (get_videos mk ([] : List String) transport).requestCount = 0 ∧
    get_channels_params [] =
      [("part", "snippet,contentDetails,statistics"), ("id", "")] ∧
    get_channels mk ([] : List String) transport =
      .ran (buildGenerator mk transport none) ∧
    (get_channels (fun n : Nat => n) ([] : List String)
        [okPage { nextPageToken := none }]).requestCount = 1 :=
  ⟨rfl, rfl, rfl, rfl, rfl⟩

/-- C10: after a successful `set_user_authentication` with token t the
getter returns exactly t, and on a freshly constructed client (before any
successful set) the getter returns null. -/
theorem auth_token_roundtrip (autoRefreshAuth : Bool) (st : AuthState)
    (token : String) (scopes : List AuthScope) (refreshToken : Option String)
    (hs : scopes ≠ [])
    (hr : autoRefreshAuth = true → refreshToken.isSome = true) :
    (set_user_authentication autoRefreshAuth st token scopes refreshToken).2
        = none ∧
    get_user_auth_token
        (set_user_authentication autoRefreshAuth st token scopes
          refreshToken).1 = some token ∧
    get_user_auth_token initAuthState = none := by
  have h1 : (refreshToken.isNone && autoRefreshAuth) = false := by
    cases ha : autoRefreshAuth with
    | false => simp
    | true =>
      rcases Option.isSome_iff_exists.mp (hr ha) with ⟨t, ht⟩
      simp [ht]
  have h2 : scopes.isEmpty = false := by
    cases scopes with
    | nil => exact absurd rfl hs
    | cons a l => rfl
  refine ⟨?_, ?_, rfl⟩
  · simp [set_user_authentication, h1, h2]
  · simp [set_user_authentication, h1, h2, get_user_auth_token]

theorem auth_token_roundtrip_witness :
    (set_user_authentication true initAuthState "tok"
        ["scope.readonly"] (some "refresh")).2 = none ∧
    get_user_auth_token
        (set_user_authentication true initAuthState "tok"
          ["scope.readonly"] (some "refresh")).1 = some "tok" ∧
    get_user_auth_token initAuthState = none :=
  auth_token_roundtrip true initAuthState "tok" ["scope.readonly"]
    (some "refresh") (by intro h; cases h) (fun _ => rfl)
